import Mathlib

/-!
Shallow embedding of `src/Lakeshore460.py`, a Tango device server adapter for a
Lakeshore Model 460 gaussmeter. The adapter talks to the instrument over a GPIB
bus by writing command strings and issuing query strings that return response
strings. We model the bus as an abstract instrument (a state type together with
write/query/clear transition functions) and each adapter method as a function
that threads the instrument state and records the emitted bus operations in a
trace. Numeric values are modelled as rationals (the scale factors are exact
powers of ten); Python exceptions (`KeyError` from the unit-multiplier dict
lookup, `ValueError` from `int()`/`float()`) are modelled with `Except`.
-/

namespace Lakeshore460

/-- A single operation emitted on the GPIB bus: a command write, a query
together with the response the instrument produced, or a bus clear. -/
inductive BusOp where
  | write (cmd : String)
  | query (cmd : String) (resp : String)
  | clear
deriving DecidableEq, Repr

/-- An abstract instrument: device state `σ` with transition functions for
command writes, queries (producing a response string), and bus clears. -/
structure Instrument (σ : Type) where
  onWrite : σ → String → σ
  onQuery : σ → String → String × σ
  onClear : σ → σ

/-- The adapter-side view of the bus: current device state plus the trace of
bus operations emitted so far (in order). -/
structure AdpM (σ : Type) where
  dev : σ
  trace : List BusOp

/-- `self.inst.write(cmd)` -/
def wr {σ : Type} (I : Instrument σ) (cmd : String) (m : AdpM σ) : AdpM σ :=
  ⟨I.onWrite m.dev cmd, m.trace ++ [BusOp.write cmd]⟩

/-- `self.inst.query(cmd)`: returns the response string and the new bus view. -/
def qu {σ : Type} (I : Instrument σ) (cmd : String) (m : AdpM σ) : String × AdpM σ :=
  ((I.onQuery m.dev cmd).1,
   ⟨(I.onQuery m.dev cmd).2, m.trace ++ [BusOp.query cmd (I.onQuery m.dev cmd).1]⟩)

/-- `self.inst.clear()` -/
def clearBus {σ : Type} (I : Instrument σ) (m : AdpM σ) : AdpM σ :=
  ⟨I.onClear m.dev, m.trace ++ [BusOp.clear]⟩

/-- A Python exception raised while handling an instrument response. -/
inductive PyErr where
  | keyError (key : String)
  | valueError (s : String)
deriving DecidableEq, Repr

instance {ε α : Type} [DecidableEq ε] [DecidableEq α] : DecidableEq (Except ε α) :=
  fun a b =>
    match a, b with
    | Except.error e, Except.error f =>
      if h : e = f then Decidable.isTrue (by rw [h])
      else Decidable.isFalse (fun hh => Except.noConfusion hh (fun he => h he))
    | Except.error _, Except.ok _ => Decidable.isFalse (fun hh => Except.noConfusion hh)
    | Except.ok _, Except.error _ => Decidable.isFalse (fun hh => Except.noConfusion hh)
    | Except.ok v, Except.ok w =>
      if h : v = w then Decidable.isTrue (by rw [h])
      else Decidable.isFalse (fun hh => Except.noConfusion hh (fun he => h he))

/-! ### Python numeric parsing, modelled over ℚ

`int(s)` and `float(s)` on the decimal literals the instrument produces.
(`float` is modelled on finite decimal/exponent literals; the special forms
`inf`/`nan` have no rational value and do not occur in this protocol.) -/

/-- Strip leading and trailing whitespace (Python `int`/`float` accept it). -/
def pyStrip (cs : List Char) : List Char :=
  ((cs.dropWhile (fun c => c.isWhitespace)).reverse.dropWhile
    (fun c => c.isWhitespace)).reverse

/-- Numeric value of a decimal digit character. -/
def digitVal (c : Char) : Nat := c.toNat - 48

/-- Value of a digit string read in base 10. -/
def digitsVal (cs : List Char) : Nat := cs.foldl (fun a c => 10 * a + digitVal c) 0

/-- A nonempty all-digit character list. -/
def isDigits (cs : List Char) : Bool := !cs.isEmpty && cs.all (fun c => c.isDigit)

/-- Python `int(s)`: optional surrounding whitespace, optional sign, digits. -/
def pyInt (s : String) : Option Int :=
  match pyStrip s.data with
  | '+' :: rest => if isDigits rest then some (Int.ofNat (digitsVal rest)) else none
  | '-' :: rest => if isDigits rest then some (-(Int.ofNat (digitsVal rest))) else none
  | rest => if isDigits rest then some (Int.ofNat (digitsVal rest)) else none

/-- Split a character list at the first `e`/`E` (exponent marker). -/
def splitExp : List Char → List Char × Option (List Char)
  | [] => ([], none)
  | c :: rest =>
    if c = 'e' ∨ c = 'E' then ([], some rest)
    else
      let p := splitExp rest
      (c :: p.1, p.2)

/-- Split a character list at the first `.` (decimal point). -/
def splitDot : List Char → List Char × Option (List Char)
  | [] => ([], none)
  | c :: rest =>
    if c = '.' then ([], some rest)
    else
      let p := splitDot rest
      (c :: p.1, p.2)

/-- Strip an optional leading sign, returning the sign as `±1`. -/
def parseSign : List Char → Int × List Char
  | '+' :: r => (1, r)
  | '-' :: r => (-1, r)
  | r => (1, r)

/-- `10^e` over ℚ for an integer exponent. -/
def pow10 (e : Int) : ℚ :=
  if 0 ≤ e then ((10 : ℚ) ^ e.toNat) else 1 / ((10 : ℚ) ^ (-e).toNat)

/-- Unsigned part of a Python float literal: digits, optional fraction,
optional signed exponent. -/
def parseUnsignedFloat (cs : List Char) : Option ℚ :=
  let mant := splitExp cs
  let ipfp := splitDot mant.1
  let ip := ipfp.1
  let fp := (ipfp.2).getD []
  if ip.all (fun c => c.isDigit) && fp.all (fun c => c.isDigit) &&
      !(ip.isEmpty && fp.isEmpty) then
    let base : ℚ := (digitsVal ip : ℚ) + (digitsVal fp : ℚ) / ((10 : ℚ) ^ fp.length)
    match mant.2 with
    | none => some base
    | some ecs =>
      let se := parseSign ecs
      if isDigits se.2 then some (base * pow10 (se.1 * (digitsVal se.2 : Int)))
      else none
  else none

/-- Python `float(s)` on finite decimal literals, as a rational. -/
def pyFloat (s : String) : Option ℚ :=
  let sg := parseSign (pyStrip s.data)
  (parseUnsignedFloat sg.2).map (fun q => (sg.1 : ℚ) * q)

/-! ### The adapter's operations (from `src/Lakeshore460.py`) -/

/-- `UNIT_MULT = {'u': 1e-6, 'm': 1e-3, ' ': 1, 'k': 1e3}` as a partial map:
a missing key is a `KeyError` at the lookup site. -/
def UNIT_MULT (k : String) : Option ℚ :=
  if k = "u" then some (1 / 1000000)
  else if k = "m" then some (1 / 1000)
  else if k = " " then some 1
  else if k = "k" then some 1000
  else none

/-- `measure(ax)`: select the channel, query the unit-multiplier prefix
(`FIELDM?`), look it up in `UNIT_MULT` (KeyError if absent, in which case
`FIELD?` is never issued), query the field value (`FIELD?`), parse it as a
float (ValueError on failure), and return the product. -/
def measure {σ : Type} (I : Instrument σ) (ax : String) (m : AdpM σ) :
    Except PyErr ℚ × AdpM σ :=
  let m1 := wr I ("CHNL " ++ ax) m
  let r1 := (qu I "FIELDM?" m1).1
  let m2 := (qu I "FIELDM?" m1).2
  match UNIT_MULT r1 with
  | none => (Except.error (PyErr.keyError r1), m2)
  | some mag =>
    let r2 := (qu I "FIELD?" m2).1
    let m3 := (qu I "FIELD?" m2).2
    match pyFloat r2 with
    | none => (Except.error (PyErr.valueError r2), m3)
    | some val => (Except.ok (mag * val), m3)

/-- `read_mx(self) = 1e3 * self.measure('X')` (an exception propagates). -/
def read_mx {σ : Type} (I : Instrument σ) (m : AdpM σ) : Except PyErr ℚ × AdpM σ :=
  let p := measure I "X" m
  (p.1.map (fun v => 1000 * v), p.2)

/-- `read_my(self) = 1e3 * self.measure('Y')` -/
def read_my {σ : Type} (I : Instrument σ) (m : AdpM σ) : Except PyErr ℚ × AdpM σ :=
  let p := measure I "Y" m
  (p.1.map (fun v => 1000 * v), p.2)

/-- `read_mz(self) = 1e3 * self.measure('Z')` -/
def read_mz {σ : Type} (I : Instrument σ) (m : AdpM σ) : Except PyErr ℚ × AdpM σ :=
  let p := measure I "Z" m
  (p.1.map (fun v => 1000 * v), p.2)

/-- `configure_device`: for each axis select the channel and set unit Tesla. -/
def configure_device {σ : Type} (I : Instrument σ) (m : AdpM σ) : AdpM σ :=
  ["X", "Y", "Z"].foldl (fun m ax => wr I "UNIT T" (wr I ("CHNL " ++ ax) m)) m

/-- The `MeasRange` IntEnum. -/
inductive MeasRange where
  | HIGHEST
  | HIGH
  | LOW
  | LOWEST
  | AUTO
deriving DecidableEq, Repr

/-- Integer value of a `MeasRange` member. -/
def MeasRange.val : MeasRange → Nat
  | .HIGHEST => 0
  | .HIGH => 1
  | .LOW => 2
  | .LOWEST => 3
  | .AUTO => 4

/-- `read_measrange`: query `AUTO?`; if the parsed integer is nonzero return
`MeasRange.AUTO` (value 4), otherwise query `RANGE?` and return the parsed
integer unvalidated. -/
def read_measrange {σ : Type} (I : Instrument σ) (m : AdpM σ) :
    Except PyErr Int × AdpM σ :=
  let r1 := (qu I "AUTO?" m).1
  let m1 := (qu I "AUTO?" m).2
  match pyInt r1 with
  | none => (Except.error (PyErr.valueError r1), m1)
  | some n =>
    if n ≠ 0 then (Except.ok 4, m1)
    else
      let r2 := (qu I "RANGE?" m1).1
      let m2 := (qu I "RANGE?" m1).2
      match pyInt r2 with
      | none => (Except.error (PyErr.valueError r2), m2)
      | some k => (Except.ok k, m2)

/-- `write_measrange(value)`: pick the command (`AUTO 1` for AUTO, otherwise
`RANGE <value>`), then for each axis select the channel and send it. -/
def write_measrange {σ : Type} (I : Instrument σ) (v : MeasRange) (m : AdpM σ) :
    AdpM σ :=
  let cmd := if v = MeasRange.AUTO then "AUTO 1" else "RANGE " ++ toString v.val
  ["X", "Y", "Z"].foldl (fun m ax => wr I cmd (wr I ("CHNL " ++ ax) m)) m

/-- `_read_enable(channel)`: select the channel, query `ONOFF?`, and return
`bool(1 - int(ans))` — the read path inverts the raw device bit. -/
def read_enable {σ : Type} (I : Instrument σ) (channel : String) (m : AdpM σ) :
    Except PyErr Bool × AdpM σ :=
  let m1 := wr I ("CHNL " ++ channel) m
  let ans := (qu I "ONOFF?" m1).1
  let m2 := (qu I "ONOFF?" m1).2
  match pyInt ans with
  | none => (Except.error (PyErr.valueError ans), m2)
  | some n => (Except.ok (decide (1 - n ≠ 0)), m2)

/-- `_write_enable(channel, value)`: select the channel and send
`ONOFF {value:d}` — `1` for True, `0` for False, with no inversion. -/
def write_enable {σ : Type} (I : Instrument σ) (channel : String) (value : Bool)
    (m : AdpM σ) : AdpM σ :=
  wr I ("ONOFF " ++ (if value then "1" else "0")) (wr I ("CHNL " ++ channel) m)

/-- `read_xenable` -/
def read_xenable {σ : Type} (I : Instrument σ) (m : AdpM σ) :
    Except PyErr Bool × AdpM σ := read_enable I "X" m

/-- `write_xenable` -/
def write_xenable {σ : Type} (I : Instrument σ) (value : Bool) (m : AdpM σ) :
    AdpM σ := write_enable I "X" value m

/-- `read_yenable` -/
def read_yenable {σ : Type} (I : Instrument σ) (m : AdpM σ) :
    Except PyErr Bool × AdpM σ := read_enable I "Y" m

/-- `write_yenable` -/
def write_yenable {σ : Type} (I : Instrument σ) (value : Bool) (m : AdpM σ) :
    AdpM σ := write_enable I "Y" value m

/-- `read_zenable` -/
def read_zenable {σ : Type} (I : Instrument σ) (m : AdpM σ) :
    Except PyErr Bool × AdpM σ := read_enable I "Z" m

/-- `write_zenable` -/
def write_zenable {σ : Type} (I : Instrument σ) (value : Bool) (m : AdpM σ) :
    AdpM σ := write_enable I "Z" value m

/-! ### `init_device` (lines 89-109)

`open_resource` and `inst.clear()` run before the `try` block; the `*IDN?`
query, the `MODEL460` check, `configure_device` and the state changes run
inside `try ... except Exception`. `sys.exit(255)` raises `SystemExit`, which
does not derive from `Exception` and therefore escapes the `except` clause, so
the `else` branch (identification mismatch) never reaches `self.inst.close()`.
We model the outcome of one run of `init_device` as a record of the
observable effects, driven by an environment saying which fallible step
raises a transport error and what the identification query returns. -/

/-- Tango device state as used by the adapter. -/
inductive DevState where
  | ON
  | FAULT
deriving DecidableEq, Repr

/-- Outcome of the `*IDN?` query: a raised transport error, or a response. -/
inductive IdnOutcome where
  | raised
  | answered (ans : String)
deriving DecidableEq, Repr

/-- Which initialization steps fail, and the `*IDN?` outcome. -/
structure InitEnv where
  openFails : Bool
  clearFails : Bool
  idn : IdnOutcome
  configFails : Bool
deriving DecidableEq, Repr

/-- Observable outcome of `init_device`: the last device state set (if any),
the `sys.exit` code (if the process terminated), whether `self.inst.close()`
ran, whether a non-`SystemExit` exception escaped `init_device`, whether
`configure_device` completed, and whether `self._fieldvalues` was assigned. -/
structure InitResult where
  state : Option DevState
  exitCode : Option Nat
  closed : Bool
  propagated : Bool
  configured : Bool
  fieldvaluesInit : Bool
deriving DecidableEq, Repr

/-- Does `needle` occur as a contiguous sublist of `hay`? -/
def containsSub (needle : List Char) : List Char → Bool
  | [] => needle.isEmpty
  | c :: rest => needle.isPrefixOf (c :: rest) || containsSub needle rest

/-- Python `'MODEL460' in ans`: substring containment. -/
def containsModel460 (ans : String) : Bool :=
  containsSub "MODEL460".data ans.data

/-- `init_device` outcome. Failures of `open_resource`/`inst.clear()` happen
before the `try` block and propagate; a transport error from the `*IDN?`
query or from `configure_device` is caught: close, FAULT, exit 255; an
identification mismatch sets FAULT and exits 255 via `SystemExit`, which the
`except Exception` clause does not catch, so the handle is not closed. -/
def init_device (e : InitEnv) : InitResult :=
  if e.openFails then ⟨none, none, false, true, false, false⟩
  else if e.clearFails then ⟨none, none, false, true, false, false⟩
  else
    match e.idn with
    | IdnOutcome.raised => ⟨some DevState.FAULT, some 255, true, false, false, false⟩
    | IdnOutcome.answered ans =>
      if containsModel460 ans then
        if e.configFails then
          ⟨some DevState.FAULT, some 255, true, false, false, false⟩
        else
          ⟨some DevState.ON, none, false, false, true, true⟩
      else
        ⟨some DevState.FAULT, some 255, false, false, false, false⟩

/-! ### The cached-poll variant (modelled from the spec)

The repository's spec describes three variants of the adapter; the source
file present is the extended on-demand variant, whose `always_executed_hook`
is a no-op (`pass`) and whose `_fieldvalues` cache is initialized but unused.
The cached-poll variant's hook and reads are not in the source tree, so they
are modelled from the spec here. -/

/-- Split a character list on commas (Python `s.split(',')`): always at least
one field, empty fields preserved. -/
def splitComma : List Char → List (List Char)
  | [] => [[]]
  | c :: rest =>
    if c = ',' then [] :: splitComma rest
    else
      match splitComma rest with
      | [] => [[c]]
      | g :: gs => (c :: g) :: gs

/-- Modelled from the spec: the cached-poll variant's poll parse (`ALLF?`
response) is missing from src (src's hook is `pass`); per the spec the hook
"issues one aggregate query returning four comma-separated numeric fields"
and parses them into the field-value cache. -/
def parseALLF (s : String) : Option (List ℚ) :=
  match ((splitComma s.data).map (fun cs => String.mk cs)).mapM pyFloat with
  | some vs => if vs.length = 4 then some vs else none
  | none => none

/-- Modelled from the spec: the cached-poll variant's `always_executed_hook`
is missing from src (src's hook is `pass`); per the spec it issues one
`ALLF?` query and parses four comma-separated values into the field-value
cache, and on a malformed response it keeps the previous cache, logs, and
clears the bus connection, propagating no exception. -/
def poll_hook {σ : Type} (I : Instrument σ) (cache : List ℚ) (m : AdpM σ) :
    List ℚ × AdpM σ :=
  let r := (qu I "ALLF?" m).1
  let m1 := (qu I "ALLF?" m).2
  match parseALLF r with
  | some vs => (vs, m1)
  | none => (cache, clearBus I m1)

/-- Modelled from the spec: the cached-poll variant's `read_mx` is missing
from src; per the spec reads "return the cached array without touching the
bus" — pure lookup of the first cache slot, no bus operation. -/
def read_mx_poll (cache : List ℚ) : ℚ := cache.getD 0 0

/-- Modelled from the spec: cached-poll `read_my` — second cache slot. -/
def read_my_poll (cache : List ℚ) : ℚ := cache.getD 1 0

/-- Modelled from the spec: cached-poll `read_mz` — third cache slot. -/
def read_mz_poll (cache : List ℚ) : ℚ := cache.getD 2 0

/-- Modelled from the spec: cached-poll `read_m` (magnitude) — fourth slot. -/
def read_m_poll (cache : List ℚ) : ℚ := cache.getD 3 0

/-! ### Trace predicates for the channel-selection claims

Whether a bus operation is a channel-scoped command or a channel select
depends only on its command string, not on the response, so the predicates
are stated over the list of command strings of a trace. -/

/-- The command string of a bus operation (a clear carries no command). -/
def cmdOf : BusOp → String
  | BusOp.write c => c
  | BusOp.query c _ => c
  | BusOp.clear => ""

/-- The command strings of a trace, in order. -/
def cmds (tr : List BusOp) : List String := tr.map cmdOf

/-- Does command string `s` start with `p`? -/
def strStartsWith (p s : String) : Bool := p.data.isPrefixOf s.data

/-- Channel-scoped instrument commands: `UNIT T`, `FIELDM?`, `FIELD?`,
`ONOFF?`, `ONOFF <n>`, `RANGE <n>`, `AUTO 1`. -/
def chnlScoped (c : String) : Bool :=
  c = "UNIT T" || c = "FIELDM?" || c = "FIELD?" || c = "ONOFF?" ||
    strStartsWith "ONOFF " c || strStartsWith "RANGE " c || c = "AUTO 1"

/-- Is this command a channel select (`CHNL <axis>`)? -/
def isChnlCmd (c : String) : Bool := strStartsWith "CHNL " c

/-- The claim's property as stated: every channel-scoped command in the
command sequence is immediately preceded (at the previous position) by a
channel-select command. -/
def immediatelySelected (cs : List String) : Bool :=
  (List.range cs.length).all fun i =>
    !(chnlScoped (cs.getD i "")) || (decide (1 ≤ i) && isChnlCmd (cs.getD (i - 1) ""))

/-- The channel-select command most recently issued strictly before position
`i` (the full `CHNL <axis>` command string), if any. -/
def lastChnlBefore (cs : List String) (i : Nat) : Option String :=
  ((cs.take i).filter isChnlCmd).getLast?

/-- Every channel-scoped command in the sequence has, as its most recent
preceding channel select, `CHNL <ax>` — i.e. it executes with channel `ax`
selected on the instrument. -/
def scopedOnChannel (cs : List String) (ax : String) : Bool :=
  (List.range cs.length).all fun i =>
    !(chnlScoped (cs.getD i "")) || lastChnlBefore cs i = some ("CHNL " ++ ax)

/-! ### Names for the instrument responses an operation consumes -/

/-- The `FIELDM?` response `measure ax` receives. -/
def fieldmResp {σ : Type} (I : Instrument σ) (ax : String) (m : AdpM σ) : String :=
  (qu I "FIELDM?" (wr I ("CHNL " ++ ax) m)).1

/-- The `FIELD?` response `measure ax` receives. -/
def fieldResp {σ : Type} (I : Instrument σ) (ax : String) (m : AdpM σ) : String :=
  (qu I "FIELD?" (qu I "FIELDM?" (wr I ("CHNL " ++ ax) m)).2).1

/-- The `ONOFF?` response `_read_enable channel` receives. -/
def onoffResp {σ : Type} (I : Instrument σ) (channel : String) (m : AdpM σ) : String :=
  (qu I "ONOFF?" (wr I ("CHNL " ++ channel) m)).1

/-- The `AUTO?` response `read_measrange` receives. -/
def autoResp {σ : Type} (I : Instrument σ) (m : AdpM σ) : String :=
  (qu I "AUTO?" m).1

/-- The `RANGE?` response `read_measrange` receives (when it asks). -/
def rangeResp {σ : Type} (I : Instrument σ) (m : AdpM σ) : String :=
  (qu I "RANGE?" (qu I "AUTO?" m).2).1

/-- The `ALLF?` response the cached-poll hook receives. -/
def allfResp {σ : Type} (I : Instrument σ) (m : AdpM σ) : String :=
  (qu I "ALLF?" m).1

/-! ### Concrete instruments for witnesses and counterexamples -/

/-- A scripted instrument: the device state is the list of pending query
responses, consumed in order; writes and clears do not change it. -/
def scripted : Instrument (List String) where
  onWrite := fun s _ => s
  onQuery := fun s _ => (s.headD "", s.tail)
  onClear := fun s => s

/-- State of a small simulated gaussmeter that stores a per-channel ONOFF
bit: the currently selected channel and the three stored bits (as the
response strings the device would produce). -/
structure SimSt where
  chnl : String
  bitX : String
  bitY : String
  bitZ : String
deriving DecidableEq, Repr

/-- The stored ONOFF bit of the currently selected channel. -/
def SimSt.bit (s : SimSt) : String :=
  if s.chnl = "X" then s.bitX else if s.chnl = "Y" then s.bitY else s.bitZ

/-- Store a bit for the currently selected channel. -/
def SimSt.setBit (s : SimSt) (b : String) : SimSt :=
  if s.chnl = "X" then { s with bitX := b }
  else if s.chnl = "Y" then { s with bitY := b }
  else { s with bitZ := b }

/-- A simulated instrument that honours `CHNL` selection and stores the bit
written by `ONOFF <n>`, answering `ONOFF?` with the stored bit of the
selected channel — "an instrument that stores the written bit". -/
def simDev : Instrument SimSt where
  onWrite := fun s cmd =>
    if cmd = "CHNL X" then { s with chnl := "X" }
    else if cmd = "CHNL Y" then { s with chnl := "Y" }
    else if cmd = "CHNL Z" then { s with chnl := "Z" }
    else if cmd = "ONOFF 1" then s.setBit "1"
    else if cmd = "ONOFF 0" then s.setBit "0"
    else s
  onQuery := fun s cmd => if cmd = "ONOFF?" then (s.bit, s) else ("", s)
  onClear := fun s => s

/-! ### Trace-shape lemmas -/

/-- The command written in the body of `write_measrange`. -/
def rangeCmd (v : MeasRange) : String :=
  if v = MeasRange.AUTO then "AUTO 1" else "RANGE " ++ toString v.val

theorem measure_trace_short {σ : Type} (I : Instrument σ) (ax : String) (m : AdpM σ)
    (h : UNIT_MULT (fieldmResp I ax m) = none) :
    (measure I ax m).2.trace = m.trace ++
      [BusOp.write ("CHNL " ++ ax), BusOp.query "FIELDM?" (fieldmResp I ax m)] := by
  unfold fieldmResp at h
  simp only [measure, h]
  simp [wr, qu, fieldmResp]

theorem measure_trace_full {σ : Type} (I : Instrument σ) (ax : String) (m : AdpM σ)
    (mag : ℚ) (h : UNIT_MULT (fieldmResp I ax m) = some mag) :
    (measure I ax m).2.trace = m.trace ++
      [BusOp.write ("CHNL " ++ ax), BusOp.query "FIELDM?" (fieldmResp I ax m),
       BusOp.query "FIELD?" (fieldResp I ax m)] := by
  unfold fieldmResp at h
  simp only [measure, h]
  rcases h2 : pyFloat ((qu I "FIELD?" (qu I "FIELDM?" (wr I ("CHNL " ++ ax) m)).2).1) with _ | v <;>
    · simp only [h2]
      simp [wr, qu, fieldmResp, fieldResp]

theorem measure_result {σ : Type} (I : Instrument σ) (ax : String) (m : AdpM σ)
    (mag v : ℚ) (h : UNIT_MULT (fieldmResp I ax m) = some mag)
    (h2 : pyFloat (fieldResp I ax m) = some v) :
    (measure I ax m).1 = Except.ok (mag * v) := by
  unfold fieldmResp at h
  unfold fieldResp at h2
  simp only [measure, h, h2]

theorem read_enable_trace {σ : Type} (I : Instrument σ) (c : String) (m : AdpM σ) :
    (read_enable I c m).2.trace = m.trace ++
      [BusOp.write ("CHNL " ++ c), BusOp.query "ONOFF?" (onoffResp I c m)] := by
  rcases h : pyInt ((qu I "ONOFF?" (wr I ("CHNL " ++ c) m)).1) with _ | n <;>
    · simp only [read_enable, h]
      simp [wr, qu, onoffResp]

theorem write_enable_trace {σ : Type} (I : Instrument σ) (c : String) (v : Bool)
    (m : AdpM σ) :
    (write_enable I c v m).trace = m.trace ++
      [BusOp.write ("CHNL " ++ c),
       BusOp.write ("ONOFF " ++ (if v then "1" else "0"))] := by
  simp [write_enable, wr]

theorem configure_device_trace {σ : Type} (I : Instrument σ) (m : AdpM σ) :
    (configure_device I m).trace = m.trace ++
      [BusOp.write "CHNL X", BusOp.write "UNIT T",
       BusOp.write "CHNL Y", BusOp.write "UNIT T",
       BusOp.write "CHNL Z", BusOp.write "UNIT T"] := by
  simp [configure_device, wr]

theorem write_measrange_trace {σ : Type} (I : Instrument σ) (v : MeasRange)
    (m : AdpM σ) :
    (write_measrange I v m).trace = m.trace ++
      [BusOp.write "CHNL X", BusOp.write (rangeCmd v),
       BusOp.write "CHNL Y", BusOp.write (rangeCmd v),
       BusOp.write "CHNL Z", BusOp.write (rangeCmd v)] := by
  cases v <;> simp [write_measrange, rangeCmd, wr]

/-- The three probe channels. -/
inductive Axis where
  | X
  | Y
  | Z
deriving DecidableEq, Repr

/-- The channel's name as sent on the bus. -/
def Axis.str : Axis → String
  | .X => "X"
  | .Y => "Y"
  | .Z => "Z"

/-! ### Claims -/

/-- C1: for every channel, `measure` returns `UNIT_MULT[p] * v`, where `p` is
the `FIELDM?` response and `v` is the float parsed from the `FIELD?`
response; `UNIT_MULT` is exactly the fixed mapping u ↦ 1e-6, m ↦ 1e-3,
' ' ↦ 1, k ↦ 1e3 and is undefined elsewhere, and an unrecognized prefix makes
`measure` raise a lookup error (`KeyError`) instead of silently scaling
by 1. -/
theorem C1_measure_unit_mult {σ : Type} (I : Instrument σ) (ax : String) (m : AdpM σ) :
    (UNIT_MULT "u" = some (1 / 1000000) ∧ UNIT_MULT "m" = some (1 / 1000) ∧
      UNIT_MULT " " = some 1 ∧ UNIT_MULT "k" = some 1000) ∧
    (∀ s : String, s ≠ "u" → s ≠ "m" → s ≠ " " → s ≠ "k" → UNIT_MULT s = none) ∧
    (UNIT_MULT (fieldmResp I ax m) = none →
      (measure I ax m).1 = Except.error (PyErr.keyError (fieldmResp I ax m))) ∧
    (∀ q v : ℚ, UNIT_MULT (fieldmResp I ax m) = some q →
      pyFloat (fieldResp I ax m) = some v →
      (measure I ax m).1 = Except.ok (q * v)) := by
  refine ⟨⟨rfl, rfl, rfl, rfl⟩, ?_, ?_, ?_⟩
  · intro s h1 h2 h3 h4
    simp [UNIT_MULT, h1, h2, h3, h4]
  · intro h
    unfold fieldmResp at h
    simp [measure, h, fieldmResp]
  · intro q v hq hv
    exact measure_result I ax m q v hq hv

unseal Rat.add Rat.mul Rat.inv in
/-- Witness for C1: on a scripted instrument answering `m` then `2.5`,
`measure` returns `1e-3 * 2.5`; on one answering the unknown prefix `q`, it
raises `KeyError 'q'`. -/
theorem C1_measure_unit_mult_witness :
    UNIT_MULT (fieldmResp scripted "X" ⟨["m", "2.5"], []⟩) = some (1 / 1000) ∧
    pyFloat (fieldResp scripted "X" ⟨["m", "2.5"], []⟩) = some (5 / 2) ∧
    (measure scripted "X" ⟨["m", "2.5"], []⟩).1 = Except.ok ((1 / 1000) * (5 / 2)) ∧
    UNIT_MULT "q" = none ∧
    UNIT_MULT (fieldmResp scripted "X" ⟨["q"], []⟩) = none ∧
    (measure scripted "X" ⟨["q"], []⟩).1 =
      Except.error (PyErr.keyError (fieldmResp scripted "X" ⟨["q"], []⟩)) := by
  refine ⟨by decide, by decide, ?_, ?_, by decide, ?_⟩
  · exact (C1_measure_unit_mult scripted "X" ⟨["m", "2.5"], []⟩).2.2.2 (1 / 1000) (5 / 2)
      (by decide) (by decide)
  · exact (C1_measure_unit_mult scripted "X" ⟨["m", "2.5"], []⟩).2.1 "q"
      (by decide) (by decide) (by decide) (by decide)
  · exact (C1_measure_unit_mult scripted "X" ⟨["q"], []⟩).2.2.1 (by decide)

/-- C4: the enable accessors are asymmetric: the write path sends the bit
uninverted (`ONOFF 1` for True, `ONOFF 0` for False), the read path returns
`bool(1 - int(ans))`, i.e. the negation of the device bit; consequently a
write(True)-then-read round trip through an instrument that stores the
written bit returns False. -/
theorem C4_enable_asymmetry {σ : Type} (I : Instrument σ) (c : String) (m : AdpM σ)
    (v : Bool) :
    ((write_enable I c v m).trace = m.trace ++
      [BusOp.write ("CHNL " ++ c),
       BusOp.write ("ONOFF " ++ (if v then "1" else "0"))]) ∧
    (∀ n : Int, pyInt (onoffResp I c m) = some n →
      (read_enable I c m).1 = Except.ok (decide (1 - n ≠ 0))) ∧
    (pyInt (onoffResp I c m) = some 1 → (read_enable I c m).1 = Except.ok false) ∧
    (pyInt (onoffResp I c m) = some 0 → (read_enable I c m).1 = Except.ok true) ∧
    (∀ s : SimSt,
      (read_xenable simDev (write_xenable simDev true ⟨s, []⟩)).1 = Except.ok false ∧
      (read_xenable simDev (write_xenable simDev true ⟨s, []⟩)).1 ≠ Except.ok true) := by
  refine ⟨write_enable_trace I c v m, ?_, ?_, ?_, ?_⟩
  · intro n h
    unfold onoffResp at h
    simp [read_enable, h]
  · intro h
    unfold onoffResp at h
    simp [read_enable, h]
  · intro h
    unfold onoffResp at h
    simp [read_enable, h]
  · intro s
    exact ⟨rfl, by intro h; exact Except.noConfusion h (fun hh => Bool.noConfusion hh)⟩

/-- Witness for C4: a scripted instrument answering `1` makes the read
accessor return False, answering `0` makes it return True. -/
theorem C4_enable_asymmetry_witness :
    (read_enable scripted "X" ⟨["1"], []⟩).1 = Except.ok false ∧
    (read_enable scripted "X" ⟨["0"], []⟩).1 = Except.ok true ∧
    (read_enable scripted "X" ⟨["2"], []⟩).1 = Except.ok (decide ((1 : Int) - 2 ≠ 0)) := by
  refine ⟨?_, ?_, ?_⟩
  · exact (C4_enable_asymmetry scripted "X" ⟨["1"], []⟩ true).2.2.1 (by decide)
  · exact (C4_enable_asymmetry scripted "X" ⟨["0"], []⟩ true).2.2.2.1 (by decide)
  · exact (C4_enable_asymmetry scripted "X" ⟨["2"], []⟩ true).2.1 2 (by decide)

/-- C5: each of `read_mx`, `read_my`, `read_mz` returns exactly 1000 times
the result of `measure` on its channel (X, Y, Z respectively), with the same
bus behaviour; an error from `measure` propagates unchanged. -/
theorem C5_read_scale {σ : Type} (I : Instrument σ) (m : AdpM σ) :
    ((read_mx I m).1 = ((measure I "X" m).1).map (fun v => 1000 * v) ∧
      (read_mx I m).2 = (measure I "X" m).2) ∧
    ((read_my I m).1 = ((measure I "Y" m).1).map (fun v => 1000 * v) ∧
      (read_my I m).2 = (measure I "Y" m).2) ∧
    ((read_mz I m).1 = ((measure I "Z" m).1).map (fun v => 1000 * v) ∧
      (read_mz I m).2 = (measure I "Z" m).2) ∧
    (∀ q : ℚ, (measure I "X" m).1 = Except.ok q → (read_mx I m).1 = Except.ok (1000 * q)) ∧
    (∀ q : ℚ, (measure I "Y" m).1 = Except.ok q → (read_my I m).1 = Except.ok (1000 * q)) ∧
    (∀ q : ℚ, (measure I "Z" m).1 = Except.ok q → (read_mz I m).1 = Except.ok (1000 * q)) := by
  refine ⟨⟨rfl, rfl⟩, ⟨rfl, rfl⟩, ⟨rfl, rfl⟩, ?_, ?_, ?_⟩
  · intro q h
    simp [read_mx, h, Except.map]
  · intro q h
    simp [read_my, h, Except.map]
  · intro q h
    simp [read_mz, h, Except.map]

unseal Rat.add Rat.mul Rat.inv in
/-- Witness for C5: on a scripted instrument answering `m` then `2.5` the
measured value is `1/400` T and the exposed value is `1000 * (1/400)` mT. -/
theorem C5_read_scale_witness :
    (read_mx scripted ⟨["m", "2.5"], []⟩).1 = Except.ok (1000 * (1 / 400)) ∧
    (read_my scripted ⟨["m", "2.5"], []⟩).1 = Except.ok (1000 * (1 / 400)) ∧
    (read_mz scripted ⟨["m", "2.5"], []⟩).1 = Except.ok (1000 * (1 / 400)) := by
  refine ⟨?_, ?_, ?_⟩
  · exact (C5_read_scale scripted ⟨["m", "2.5"], []⟩).2.2.2.1 (1 / 400) (by decide)
  · exact (C5_read_scale scripted ⟨["m", "2.5"], []⟩).2.2.2.2.1 (1 / 400) (by decide)
  · exact (C5_read_scale scripted ⟨["m", "2.5"], []⟩).2.2.2.2.2 (1 / 400) (by decide)

/-- C2 counterexample: in the command sequence emitted by `measure('X')` —
`CHNL X`, `FIELDM?`, `FIELD?` — the channel-scoped `FIELD?` query is
immediately preceded by the `FIELDM?` query, not by a channel-select
command, so the claim's "immediately preceded by a channel-select" property
is false as stated. -/
theorem C2_counterexample :
    cmds (measure scripted "X" ⟨["m", "2.5"], []⟩).2.trace =
      ["CHNL X", "FIELDM?", "FIELD?"] ∧
    immediatelySelected (cmds (measure scripted "X" ⟨["m", "2.5"], []⟩).2.trace) = false ∧
    chnlScoped "FIELD?" = true ∧ isChnlCmd "FIELDM?" = false := by
  decide

/-- C2 (amended): every channel-scoped command the adapter emits executes
with the channel it targets selected — within the same operation, the most
recent preceding bus command is a channel select naming that channel (in
`measure`, the `FIELD?` query follows its channel select with only the
`FIELDM?` query in between); in the enable accessors, the configuration
routine and the range write, each channel-scoped command is in fact
immediately preceded by its channel select. -/
theorem C2_channel_scoping {σ : Type} (I : Instrument σ) (d : σ) (a : Axis)
    (v : Bool) (r : MeasRange) :
    scopedOnChannel (cmds (measure I a.str ⟨d, []⟩).2.trace) a.str = true ∧
    scopedOnChannel (cmds (read_enable I a.str ⟨d, []⟩).2.trace) a.str = true ∧
    scopedOnChannel (cmds (write_enable I a.str v ⟨d, []⟩).trace) a.str = true ∧
    immediatelySelected (cmds (read_enable I a.str ⟨d, []⟩).2.trace) = true ∧
    immediatelySelected (cmds (write_enable I a.str v ⟨d, []⟩).trace) = true ∧
    immediatelySelected (cmds (configure_device I ⟨d, []⟩).trace) = true ∧
    immediatelySelected (cmds (write_measrange I r ⟨d, []⟩).trace) = true ∧
    cmds (configure_device I ⟨d, []⟩).trace =
      ["CHNL X", "UNIT T", "CHNL Y", "UNIT T", "CHNL Z", "UNIT T"] ∧
    cmds (write_measrange I r ⟨d, []⟩).trace =
      ["CHNL X", rangeCmd r, "CHNL Y", rangeCmd r, "CHNL Z", rangeCmd r] := by
  have hre : cmds (read_enable I a.str ⟨d, []⟩).2.trace = ["CHNL " ++ a.str, "ONOFF?"] := by
    rw [read_enable_trace]
    simp [cmds, cmdOf]
  have hwe : cmds (write_enable I a.str v ⟨d, []⟩).trace =
      ["CHNL " ++ a.str, "ONOFF " ++ (if v then "1" else "0")] := by
    rw [write_enable_trace]
    simp [cmds, cmdOf]
  have hcf : cmds (configure_device I ⟨d, []⟩).trace =
      ["CHNL X", "UNIT T", "CHNL Y", "UNIT T", "CHNL Z", "UNIT T"] := by
    rw [configure_device_trace]
    simp [cmds, cmdOf]
  have hwm : cmds (write_measrange I r ⟨d, []⟩).trace =
      ["CHNL X", rangeCmd r, "CHNL Y", rangeCmd r, "CHNL Z", rangeCmd r] := by
    rw [write_measrange_trace]
    simp [cmds, cmdOf]
  have hme : cmds (measure I a.str ⟨d, []⟩).2.trace = ["CHNL " ++ a.str, "FIELDM?"] ∨
      cmds (measure I a.str ⟨d, []⟩).2.trace = ["CHNL " ++ a.str, "FIELDM?", "FIELD?"] := by
    cases h : UNIT_MULT (fieldmResp I a.str ⟨d, []⟩) with
    | none =>
      left
      rw [measure_trace_short I a.str ⟨d, []⟩ h]
      simp [cmds, cmdOf]
    | some q =>
      right
      rw [measure_trace_full I a.str ⟨d, []⟩ q h]
      simp [cmds, cmdOf]
  refine ⟨?_, ?_, ?_, ?_, ?_, ?_, ?_, hcf, hwm⟩
  · rcases hme with h | h <;> rw [h] <;> cases a <;> decide
  · rw [hre]; cases a <;> decide
  · rw [hwe]; cases a <;> cases v <;> decide
  · rw [hre]; cases a <;> decide
  · rw [hwe]; cases a <;> cases v <;> decide
  · rw [hcf]; decide
  · rw [hwm]; cases r <;> decide

/-- C6: every call to `read_mx`/`read_my`/`read_mz`, from any starting state
`m` (so in particular on every repeated call), issues exactly the fresh bus
sequence channel-select write, `FIELDM?` query, `FIELD?` query, in that
order, appended to the trace, and computes its value from the responses
received in that same call — nothing is cached or reused across calls. -/
theorem C6_fresh_reads {σ : Type} (I : Instrument σ) (m : AdpM σ) :
    (∀ q v : ℚ, UNIT_MULT (fieldmResp I "X" m) = some q →
      pyFloat (fieldResp I "X" m) = some v →
      (read_mx I m).2.trace = m.trace ++
        [BusOp.write "CHNL X", BusOp.query "FIELDM?" (fieldmResp I "X" m),
         BusOp.query "FIELD?" (fieldResp I "X" m)] ∧
      (read_mx I m).1 = Except.ok (1000 * (q * v))) ∧
    (∀ q v : ℚ, UNIT_MULT (fieldmResp I "Y" m) = some q →
      pyFloat (fieldResp I "Y" m) = some v →
      (read_my I m).2.trace = m.trace ++
        [BusOp.write "CHNL Y", BusOp.query "FIELDM?" (fieldmResp I "Y" m),
         BusOp.query "FIELD?" (fieldResp I "Y" m)] ∧
      (read_my I m).1 = Except.ok (1000 * (q * v))) ∧
    (∀ q v : ℚ, UNIT_MULT (fieldmResp I "Z" m) = some q →
      pyFloat (fieldResp I "Z" m) = some v →
      (read_mz I m).2.trace = m.trace ++
        [BusOp.write "CHNL Z", BusOp.query "FIELDM?" (fieldmResp I "Z" m),
         BusOp.query "FIELD?" (fieldResp I "Z" m)] ∧
      (read_mz I m).1 = Except.ok (1000 * (q * v))) := by
  refine ⟨?_, ?_, ?_⟩ <;>
    · intro q v hq hv
      constructor
      · show (measure I _ m).2.trace = _
        rw [measure_trace_full _ _ _ q hq]
        simp
      · have hr := measure_result I _ m q v hq hv
        simp [read_mx, read_my, read_mz, hr, Except.map]

unseal Rat.add Rat.mul Rat.inv in
/-- Witness for C6: one `read_mx` call on a scripted instrument answering
`m` then `2.5` emits exactly the three operations and returns
`1000 * (1e-3 * 2.5)`. -/
theorem C6_fresh_reads_witness :
    (read_mx scripted ⟨["m", "2.5"], []⟩).2.trace =
      [BusOp.write "CHNL X", BusOp.query "FIELDM?" "m", BusOp.query "FIELD?" "2.5"] ∧
    (read_mx scripted ⟨["m", "2.5"], []⟩).1 = Except.ok (1000 * ((1 / 1000) * (5 / 2))) := by
  have h := (C6_fresh_reads scripted ⟨["m", "2.5"], []⟩).1 (1 / 1000) (5 / 2)
    (by decide) (by decide)
  exact h

/-- C7: writing `measrange = AUTO` emits `CHNL`/`AUTO 1` pairs for X, Y, Z
and no numeric `RANGE` command; writing any of the other four enumerated
values emits `CHNL`/`RANGE <code>` pairs for X, Y, Z and never `AUTO 1`. -/
theorem C7_write_measrange {σ : Type} (I : Instrument σ) (d : σ) (v : MeasRange) :
    ((write_measrange I MeasRange.AUTO ⟨d, []⟩).trace =
      [BusOp.write "CHNL X", BusOp.write "AUTO 1", BusOp.write "CHNL Y",
       BusOp.write "AUTO 1", BusOp.write "CHNL Z", BusOp.write "AUTO 1"]) ∧
    ((write_measrange I MeasRange.AUTO ⟨d, []⟩).trace.all
      (fun op => !(strStartsWith "RANGE " (cmdOf op))) = true) ∧
    (v ≠ MeasRange.AUTO →
      (write_measrange I v ⟨d, []⟩).trace =
        [BusOp.write "CHNL X", BusOp.write ("RANGE " ++ toString v.val),
         BusOp.write "CHNL Y", BusOp.write ("RANGE " ++ toString v.val),
         BusOp.write "CHNL Z", BusOp.write ("RANGE " ++ toString v.val)] ∧
      (write_measrange I v ⟨d, []⟩).trace.all
        (fun op => !(cmdOf op = "AUTO 1")) = true) := by
  have hauto := write_measrange_trace I MeasRange.AUTO ⟨d, []⟩
  refine ⟨?_, ?_, ?_⟩
  · rw [hauto]; rfl
  · rw [hauto]; rfl
  · intro h
    have hv := write_measrange_trace I v ⟨d, []⟩
    cases v with
    | AUTO => exact absurd rfl h
    | HIGHEST => exact ⟨by rw [hv]; rfl, by rw [hv]; rfl⟩
    | HIGH => exact ⟨by rw [hv]; rfl, by rw [hv]; rfl⟩
    | LOW => exact ⟨by rw [hv]; rfl, by rw [hv]; rfl⟩
    | LOWEST => exact ⟨by rw [hv]; rfl, by rw [hv]; rfl⟩

/-- Witness for C7: the non-AUTO branch instantiated at `LOW` (code 2). -/
theorem C7_write_measrange_witness :
    (write_measrange scripted MeasRange.LOW ⟨[], []⟩).trace =
      [BusOp.write "CHNL X", BusOp.write "RANGE 2", BusOp.write "CHNL Y",
       BusOp.write "RANGE 2", BusOp.write "CHNL Z", BusOp.write "RANGE 2"] ∧
    (write_measrange scripted MeasRange.LOW ⟨[], []⟩).trace.all
      (fun op => !(cmdOf op = "AUTO 1")) = true := by
  exact (C7_write_measrange scripted [] MeasRange.LOW).2.2 (by decide)

/-- C10: `read_measrange` issues `RANGE?` only when the `AUTO?` response
parses to 0; when `AUTO?` is nonzero it returns `MeasRange.AUTO` (value 4)
after the single `AUTO?` query; when `AUTO?` is 0 it returns the integer
parsed from the `RANGE?` response unvalidated — any integer passes through,
and in particular a `RANGE?` response of `4` yields the value 4, identical
to the `AUTO` enumerated value. -/
theorem C10_read_measrange {σ : Type} (I : Instrument σ) (m : AdpM σ) :
    (∀ n : Int, pyInt (autoResp I m) = some n → n ≠ 0 →
      (read_measrange I m).1 = Except.ok 4 ∧
      (read_measrange I m).2.trace = m.trace ++ [BusOp.query "AUTO?" (autoResp I m)]) ∧
    (∀ k : Int, pyInt (autoResp I m) = some 0 → pyInt (rangeResp I m) = some k →
      (read_measrange I m).1 = Except.ok k ∧
      (read_measrange I m).2.trace = m.trace ++
        [BusOp.query "AUTO?" (autoResp I m), BusOp.query "RANGE?" (rangeResp I m)]) ∧
    (4 : Int) = (MeasRange.AUTO.val : Int) := by
  refine ⟨?_, ?_, rfl⟩
  · intro n hn hnz
    unfold autoResp at hn
    simp only [qu] at hn
    constructor
    · simp [read_measrange, qu, hn, hnz]
    · simp [read_measrange, qu, hn, hnz, autoResp]
  · intro k h0 hk
    unfold autoResp at h0
    unfold rangeResp at hk
    simp only [qu] at h0 hk
    constructor
    · simp [read_measrange, qu, h0, hk]
    · simp [read_measrange, qu, h0, hk, autoResp, rangeResp]

/-- Witness for C10: `AUTO?` answering `1` gives AUTO (4) with no `RANGE?`
query; `AUTO?` answering `0` and `RANGE?` answering `4` gives the value 4 —
indistinguishable from AUTO. -/
theorem C10_read_measrange_witness :
    (read_measrange scripted ⟨["1"], []⟩).1 = Except.ok 4 ∧
    (read_measrange scripted ⟨["1"], []⟩).2.trace = [BusOp.query "AUTO?" "1"] ∧
    (read_measrange scripted ⟨["0", "4"], []⟩).1 = Except.ok 4 ∧
    (read_measrange scripted ⟨["0", "4"], []⟩).2.trace =
      [BusOp.query "AUTO?" "0", BusOp.query "RANGE?" "4"] := by
  have h1 := (C10_read_measrange scripted ⟨["1"], []⟩).1 1 (by decide) (by decide)
  have h2 := (C10_read_measrange scripted ⟨["0", "4"], []⟩).2.1 4 (by decide) (by decide)
  exact ⟨h1.1, h1.2, h2.1, h2.2⟩

/-- C3 counterexample: a transport error raised while opening the connection
(before the `try` block) propagates out of `init_device` with no FAULT state
set and no process exit — contradicting the claim that any transport error
during initialization leads to FAULT and exit 255. -/
theorem C3_counterexample :
    (init_device ⟨true, false, IdnOutcome.answered "LSCI,MODEL460,0", false⟩).exitCode =
      none ∧
    (init_device ⟨true, false, IdnOutcome.answered "LSCI,MODEL460,0", false⟩).state =
      none ∧
    (init_device ⟨true, false, IdnOutcome.answered "LSCI,MODEL460,0", false⟩).propagated =
      true := by
  decide

/-- C3 (amended): a transport error from the identification query or the
configuration routine, or an identification response lacking `MODEL460`,
sets FAULT and exits 255; a transport error while opening or clearing the
connection instead propagates with no state change and no exit; otherwise
the device is configured and set to ON. -/
theorem C3_amended (e : InitEnv) :
    (e.openFails = true → init_device e = ⟨none, none, false, true, false, false⟩) ∧
    (e.openFails = false → e.clearFails = true →
      init_device e = ⟨none, none, false, true, false, false⟩) ∧
    (e.openFails = false → e.clearFails = false → e.idn = IdnOutcome.raised →
      init_device e = ⟨some DevState.FAULT, some 255, true, false, false, false⟩) ∧
    (∀ ans, e.openFails = false → e.clearFails = false →
      e.idn = IdnOutcome.answered ans → containsModel460 ans = false →
      init_device e = ⟨some DevState.FAULT, some 255, false, false, false, false⟩) ∧
    (∀ ans, e.openFails = false → e.clearFails = false →
      e.idn = IdnOutcome.answered ans → containsModel460 ans = true →
      e.configFails = true →
      init_device e = ⟨some DevState.FAULT, some 255, true, false, false, false⟩) ∧
    (∀ ans, e.openFails = false → e.clearFails = false →
      e.idn = IdnOutcome.answered ans → containsModel460 ans = true →
      e.configFails = false →
      init_device e = ⟨some DevState.ON, none, false, false, true, true⟩) := by
  refine ⟨?_, ?_, ?_, ?_, ?_, ?_⟩
  · intro h1
    simp [init_device, h1]
  · intro h1 h2
    simp [init_device, h1, h2]
  · intro h1 h2 h3
    simp [init_device, h1, h2, h3]
  · intro ans h1 h2 h3 h4
    simp [init_device, h1, h2, h3, h4]
  · intro ans h1 h2 h3 h4 h5
    simp [init_device, h1, h2, h3, h4, h5]
  · intro ans h1 h2 h3 h4 h5
    simp [init_device, h1, h2, h3, h4, h5]

/-- Witness for C3 (amended): the four startup outcomes at concrete
environments. -/
theorem C3_amended_witness :
    init_device ⟨true, false, IdnOutcome.answered "MODEL460", false⟩ =
      ⟨none, none, false, true, false, false⟩ ∧
    init_device ⟨false, false, IdnOutcome.raised, false⟩ =
      ⟨some DevState.FAULT, some 255, true, false, false, false⟩ ∧
    init_device ⟨false, false, IdnOutcome.answered "LSCI,MODEL460,0", false⟩ =
      ⟨some DevState.ON, none, false, false, true, true⟩ ∧
    init_device ⟨false, false, IdnOutcome.answered "NOPE", false⟩ =
      ⟨some DevState.FAULT, some 255, false, false, false, false⟩ := by
  refine ⟨(C3_amended _).1 rfl, (C3_amended _).2.2.1 rfl rfl rfl, ?_, ?_⟩
  · exact (C3_amended _).2.2.2.2.2 "LSCI,MODEL460,0" rfl rfl rfl (by decide) rfl
  · exact (C3_amended _).2.2.2.1 "NOPE" rfl rfl rfl (by decide)

/-- C9 counterexample: when the identification response lacks `MODEL460`,
`init_device` sets FAULT and exits 255 via `SystemExit`, which the
`except Exception` clause does not catch, so `self.inst.close()` never runs —
a fatal initialization failure on which the handle is not torn down. -/
theorem C9_counterexample :
    (init_device ⟨false, false, IdnOutcome.answered "NOPE", false⟩).exitCode = some 255 ∧
    (init_device ⟨false, false, IdnOutcome.answered "NOPE", false⟩).state =
      some DevState.FAULT ∧
    (init_device ⟨false, false, IdnOutcome.answered "NOPE", false⟩).closed = false := by
  decide

/-- C9 (amended): assuming the connection opens and clears, the handle is
closed exactly when a transport error is raised inside the `try` block (by
the identification query or by the configuration routine); on an
identification mismatch the process exits without closing the handle, and
on success the handle stays open. -/
theorem C9_amended (e : InitEnv) (ho : e.openFails = false)
    (hc : e.clearFails = false) :
    ((init_device e).closed = true ↔
      (e.idn = IdnOutcome.raised ∨
        (∃ ans, e.idn = IdnOutcome.answered ans ∧ containsModel460 ans = true ∧
          e.configFails = true))) ∧
    ((init_device e).state = some DevState.ON → (init_device e).closed = false) := by
  obtain ⟨o, c, idn, cf⟩ := e
  simp only at ho hc
  subst ho
  subst hc
  cases idn with
  | raised => cases cf <;> simp [init_device]
  | answered ans =>
    by_cases h : containsModel460 ans <;> cases cf <;> simp [init_device, h]

/-- Witness for C9 (amended): an identification-query transport error closes
the handle; an identification mismatch does not. -/
theorem C9_amended_witness :
    (init_device ⟨false, false, IdnOutcome.raised, false⟩).closed = true ∧
    (init_device ⟨false, false, IdnOutcome.answered "NOPE", false⟩).closed = false := by
  refine ⟨?_, by decide⟩
  exact ((C9_amended ⟨false, false, IdnOutcome.raised, false⟩ rfl rfl).1).mpr (Or.inl rfl)

/-- C8 (cached-poll variant, modelled from the spec): the periodic hook
issues one `ALLF?` query; a well-formed response (four comma-separated
floats) replaces the cache wholesale; a malformed response leaves the cache
unchanged, triggers a connection clear, and the hook still returns normally
(it is a total function — no exception escapes); reads of mx/my/mz/m are
pure cache lookups that issue no bus operation. -/
theorem C8_cached_poll {σ : Type} (I : Instrument σ) (cache : List ℚ) (m : AdpM σ) :
    (∀ vs, parseALLF (allfResp I m) = some vs →
      (poll_hook I cache m).1 = vs ∧
      (poll_hook I cache m).2.trace = m.trace ++ [BusOp.query "ALLF?" (allfResp I m)]) ∧
    (parseALLF (allfResp I m) = none →
      (poll_hook I cache m).1 = cache ∧
      (poll_hook I cache m).2.trace = m.trace ++
        [BusOp.query "ALLF?" (allfResp I m), BusOp.clear]) ∧
    (read_mx_poll cache = cache.getD 0 0 ∧ read_my_poll cache = cache.getD 1 0 ∧
      read_mz_poll cache = cache.getD 2 0 ∧ read_m_poll cache = cache.getD 3 0) := by
  refine ⟨?_, ?_, rfl, rfl, rfl, rfl⟩
  · intro vs h
    unfold allfResp at h
    simp only [qu] at h
    constructor
    · simp [poll_hook, qu, h]
    · simp [poll_hook, qu, h, allfResp]
  · intro h
    unfold allfResp at h
    simp only [qu] at h
    constructor
    · simp [poll_hook, qu, h]
    · simp [poll_hook, qu, h, clearBus, allfResp]

unseal Rat.add Rat.mul Rat.inv in
/-- Witness for C8: the spec's test — polling `"1.0,2.0,3.0,4.0"` yields the
cache `[1, 2, 3, 4]` read back in order; polling an empty response keeps the
previous cache and emits a clear. -/
theorem C8_cached_poll_witness :
    parseALLF "1.0,2.0,3.0,4.0" = some [1, 2, 3, 4] ∧
    (poll_hook scripted [9, 9, 9, 9] ⟨["1.0,2.0,3.0,4.0"], []⟩).1 = [1, 2, 3, 4] ∧
    read_mx_poll [1, 2, 3, 4] = 1 ∧ read_my_poll [1, 2, 3, 4] = 2 ∧
    read_mz_poll [1, 2, 3, 4] = 3 ∧ read_m_poll [1, 2, 3, 4] = 4 ∧
    parseALLF "" = none ∧
    (poll_hook scripted [9, 9, 9, 9] ⟨[""], []⟩).1 = [9, 9, 9, 9] ∧
    (poll_hook scripted [9, 9, 9, 9] ⟨[""], []⟩).2.trace =
      [BusOp.query "ALLF?" "", BusOp.clear] := by
  refine ⟨by decide, ?_, by decide, by decide, by decide, by decide, by decide, ?_, ?_⟩
  · exact ((C8_cached_poll scripted [9, 9, 9, 9] ⟨["1.0,2.0,3.0,4.0"], []⟩).1
      [1, 2, 3, 4] (by decide)).1
  · exact ((C8_cached_poll scripted [9, 9, 9, 9] ⟨[""], []⟩).2.1 (by decide)).1
  · exact ((C8_cached_poll scripted [9, 9, 9, 9] ⟨[""], []⟩).2.1 (by decide)).2

end Lakeshore460
